import Mathlib

/-!
Verification of the SMS/iMessage relay service (`relay.py`) against its
natural-language specification.  The relevant parts of the program are
shallowly embedded: the sqlite database is a list of joined rows, a UTC
datetime is its Unix timestamp as an exact rational, the ambient local
timezone is an explicit function, sink and clock behaviour of a cycle is
an explicit environment record, and a raised exception is an `Except.error`.
-/

namespace SmsRelay

/-- Seconds between the Unix epoch (1970-01-01) and the Apple epoch
(2001-01-01); constant `APPLE_EPOCH_OFFSET` in relay.py. -/
def APPLE_EPOCH_OFFSET : ℤ := 978307200

/-- Shallow embedding of `apple_ts_to_datetime` (relay.py lines 106-118).
The raw Apple CoreData value is an integer column (`NULL` modelled as
`none`); the returned UTC datetime is modelled by its Unix timestamp in
seconds as an exact rational (the Python code computes this same quantity
before calling `datetime.fromtimestamp`).  Values strictly above `1e15`
are treated as nanoseconds since the Apple epoch, all other nonzero
values as seconds. -/
def apple_ts_to_datetime : Option ℤ → Option ℚ
  | none => none
  | some ts =>
    if ts = 0 then none
    else if (10 : ℤ) ^ 15 < ts then some ((ts : ℚ) / 10 ^ 9 + (APPLE_EPOCH_OFFSET : ℚ))
    else some ((ts : ℚ) + (APPLE_EPOCH_OFFSET : ℚ))

/-- Result of `datetime.astimezone()` as consumed by `apply_filters`:
the Python `weekday()` (0 = Monday) and `hour` of the local time. -/
structure LocalTime where
  weekday : ℕ
  hour : ℤ
deriving DecidableEq

/-- A message dict as built by `fetch_new_messages` (relay.py lines 184-195). -/
structure Msg where
  rowid : ℤ
  guid : String
  text : String
  date : Option ℚ
  service : String
  sender : String
  chat_name : String
  has_attachment : Bool
deriving DecidableEq

/-- The `filters` section of the configuration as read by `apply_filters`. -/
structure FilterConfig where
  allowed_senders : List String
  blocked_senders : List String
  business_hours_only : Bool
  bh_start : ℤ
  bh_end : ℤ
  business_days : List ℕ
deriving DecidableEq

/-- Per-message admission test: the body of the loop in `apply_filters`
(relay.py lines 225-236).  `localtz` models the ambient local timezone
used by `astimezone()`.  Note the guard `bh_only and msg["date"]`: the
business-hours checks run only when a date is present. -/
def passes_filters (localtz : ℚ → LocalTime) (filters : FilterConfig) (msg : Msg) : Bool :=
  if !filters.allowed_senders.isEmpty && !(filters.allowed_senders.contains msg.sender) then
    false
  else if filters.blocked_senders.contains msg.sender then
    false
  else
    match filters.business_hours_only, msg.date with
    | true, some d =>
      let lt := localtz d
      if !(filters.business_days.contains lt.weekday) then false
      else if !(decide (filters.bh_start ≤ lt.hour) && decide (lt.hour < filters.bh_end)) then
        false
      else true
    | _, _ => true

/-- relay.py `apply_filters` (lines 216-237): keep the messages passing
the admission test, preserving order. -/
def apply_filters (localtz : ℚ → LocalTime) (messages : List Msg) (filters : FilterConfig) :
    List Msg :=
  messages.filter (passes_filters localtz filters)

/-- Python `x or default` on an optional string column: `None` and the
empty string are falsy. -/
def pyOrStr (v : Option String) (default : String) : String :=
  match v with
  | none => default
  | some s => if s = "" then default else s

/-- Whether the first character list is an initial segment of the second. -/
def leadsWith : List Char → List Char → Bool
  | [], _ => true
  | _ :: _, [] => false
  | a :: as, b :: bs => a == b && leadsWith as bs

/-- Whether the needle occurs as a contiguous run inside the haystack. -/
def occursIn (needle : List Char) : List Char → Bool
  | [] => leadsWith needle []
  | b :: bs => leadsWith needle (b :: bs) || occursIn needle bs

/-- Python substring test `needle in s`, for non-empty needles. -/
def pyContains (needle s : String) : Bool :=
  occursIn needle.toList s.toList

/-- A row of the joined query in `fetch_new_messages` (relay.py lines
156-180); the LEFT-JOINed columns `h.id`, `c.display_name` and
`c.account_login` are optional, as is `m.text`. -/
structure Row where
  rowid : ℤ
  guid : String
  text : Option String
  date : Option ℤ
  service : Option String
  is_from_me : Bool
  cache_has_attachments : Bool
  sender : Option String
  chat_name : Option String
  account_login : Option String
deriving DecidableEq

/-- The SQL WHERE clause of `fetch_new_messages` (relay.py lines 141-151):
inbound only, ROWID strictly beyond the cursor, non-NULL and non-empty
text, and — only when `relay_number` is set — `account_login LIKE
%relay_number%` (a NULL `account_login` never matches LIKE). -/
def row_passes (last_rowid : ℤ) (relay_number : String) (r : Row) : Bool :=
  !r.is_from_me && decide (last_rowid < r.rowid) &&
    (match r.text with
     | none => false
     | some t => !(t == "")) &&
    (relay_number == "" ||
     (match r.account_login with
      | none => false
      | some a => pyContains relay_number a))

/-- Construction of the message dict from a row (relay.py lines 184-195),
with Python `or` defaults for NULL sender / service / chat name.  The
WHERE clause guarantees `text` is present, so the `getD` default is
never used. -/
def row_to_msg (r : Row) : Msg :=
  { rowid := r.rowid
    guid := r.guid
    text := r.text.getD ""
    date := apple_ts_to_datetime r.date
    service := pyOrStr r.service "SMS"
    sender := pyOrStr r.sender "unknown"
    chat_name := pyOrStr r.chat_name ""
    has_attachment := r.cache_has_attachments }

/-- Insert a row into a list already sorted by ascending ROWID. -/
def insertByRowid (r : Row) : List Row → List Row
  | [] => [r]
  | x :: xs => if r.rowid ≤ x.rowid then r :: x :: xs else x :: insertByRowid r xs

/-- Sort rows by ascending ROWID: the `ORDER BY m.ROWID ASC` of the query. -/
def sortByRowid : List Row → List Row
  | [] => []
  | x :: xs => insertByRowid x (sortByRowid xs)

/-- relay.py `fetch_new_messages` (lines 126-198).  The sqlite database
is modelled as the list of joined rows; the query filters by the WHERE
clause, orders by ROWID ascending, applies `LIMIT`, and the Python loop
maps each selected row to a message dict. -/
def fetch_new_messages (db : List Row) (last_rowid : ℤ) (limit : ℕ)
    (relay_number : String) : List Msg :=
  ((sortByRowid (db.filter (row_passes last_rowid relay_number))).take limit).map row_to_msg

/-- Outcome of `urlopen(req, timeout=30)` in `send_gchat_webhook`:
either a response carrying an HTTP status code, or a raised `URLError`.
`HTTPError` subclasses `URLError`, so statuses of 400 and above surface
as the error case; 2xx responses are returned as responses. -/
inductive UrlOpenResult where
  | response (status : ℕ)
  | urlError
deriving DecidableEq

/-- relay.py `send_gchat_webhook` (lines 264-277): returns
`resp.status == 200` on a response; catches `URLError`, logs, and
returns `False`.  No exception escapes. -/
def send_gchat_webhook : UrlOpenResult → Bool
  | .response s => s == 200
  | .urlError => false

/-- Filesystem operations performed by `save_state` (relay.py lines 96-98). -/
inductive FsOp where
  | mkdirConfigDir
  | writeFile (path : String) (contents : String)
deriving DecidableEq

/-- Path of the persisted cursor file (`STATE_FILE`). -/
def stateFilePath : String := "state.json"

/-- relay.py `save_state`: `CONFIG_DIR.mkdir(...)` followed by a single
direct `STATE_FILE.write_text(...)` of the serialized state.  There is
no temporary file and no rename. -/
def save_state_ops (serialized : String) : List FsOp :=
  [FsOp.mkdirConfigDir, FsOp.writeFile stateFilePath serialized]

/-- Contents the state file can hold if the process crashes at any point
while the listed operations run, starting from `old` on disk.  An
in-place `write_text` truncates and then writes, so a crash during a
`writeFile` to the state file can leave any prefix of its contents. -/
def crash_contents (old : String) : List FsOp → List String
  | [] => [old]
  | FsOp.mkdirConfigDir :: rest => old :: crash_contents old rest
  | FsOp.writeFile p c :: rest =>
    if p = stateFilePath then
      ((List.range (c.length + 1)).map (fun i => c.take i)) ++ crash_contents c rest
    else old :: crash_contents old rest

/-- Crash atomicity of the cursor write: every content the state file
can hold at a crash point is the complete old record or the complete
new record. -/
def save_state_atomic (old serialized : String) : Prop :=
  ∀ s ∈ crash_contents old (save_state_ops serialized), s = old ∨ s = serialized

/-- The persisted state record (`state.json`): `last_rowid` plus the
optional `last_run` ISO timestamp string. -/
structure State where
  last_rowid : ℤ
  last_run : Option String
deriving DecidableEq

/-- State of a first run, before any cycle has persisted anything
(`load_state` returns `last_rowid = 0`). -/
def initial_state : State := ⟨0, none⟩

/-- The configuration fields consumed by one poll cycle. -/
structure Config where
  digest_mode : Bool
  max_messages_per_run : ℕ
  relay_number : String
  filters : FilterConfig

/-- A `sqlite3.OperationalError` raised by the fetch, with its message. -/
inductive FetchExc where
  | operationalError (msg : String)

/-- Environment of one poll cycle: the database contents, whether the
fetch raises, the sink outcome of the i-th send attempt, the wall-clock
reading used for `last_run`, and the ambient local timezone. -/
structure CycleEnv where
  db : List Row
  fetchExc : Option FetchExc
  sink : ℕ → Bool
  now : String
  localtz : ℚ → LocalTime

/-- Number of sink send attempts made by `forward` (relay.py lines
298-322): none for an empty list, one in digest mode, one per message
otherwise.  A failed send is never retried. -/
def forward_sends (digest_mode : Bool) (msgs : List Msg) : ℕ :=
  if msgs.isEmpty then 0 else if digest_mode then 1 else msgs.length

/-- Return value of `forward`: true only when every send attempt
reported success (the loop records failure in `ok` and keeps going). -/
def forward_ok (digest_mode : Bool) (sink : ℕ → Bool) (msgs : List Msg) : Bool :=
  if msgs.isEmpty then true
  else if digest_mode then sink 0
  else (List.range msgs.length).all sink

/-- Observable outcome of a completed `run_once`: the state it leaves
persisted, whether `save_state` was called, how many sink sends were
attempted, and whether `forward` reported success. -/
structure RunResult where
  state : State
  saved : Bool
  sendCount : ℕ
  forwardOk : Bool
deriving DecidableEq

/-- relay.py `run_once` (lines 330-372).  The fetch's
`OperationalError` is caught when its message contains
"database is locked" (skip the cycle, state untouched); any other
`OperationalError` is re-raised and escapes as `Except.error`.  An
empty fetch returns without saving.  Otherwise the batch is filtered,
forwarded best-effort, and the cursor is advanced to the last (highest)
fetched ROWID and saved together with the current time. -/
def run_once (cfg : Config) (env : CycleEnv) (state : State) : Except String RunResult :=
  match env.fetchExc with
  | some (.operationalError m) =>
    if pyContains "database is locked" m then Except.ok ⟨state, false, 0, true⟩
    else Except.error m
  | none =>
    let messages := fetch_new_messages env.db state.last_rowid cfg.max_messages_per_run
      cfg.relay_number
    match messages.getLast? with
    | none => Except.ok ⟨state, false, 0, true⟩
    | some lastMsg =>
      let filtered := apply_filters env.localtz messages cfg.filters
      let fwdOk := if filtered.isEmpty then true else forward_ok cfg.digest_mode env.sink filtered
      let cnt := if filtered.isEmpty then 0 else forward_sends cfg.digest_mode filtered
      Except.ok ⟨⟨lastMsg.rowid, some env.now⟩, true, cnt, fwdOk⟩

/-- One iteration of `run_daemon` (relay.py lines 375-384): any
exception is caught and logged, leaving the persisted state untouched. -/
def daemon_step (cfg : Config) (env : CycleEnv) (s : State) : State :=
  match run_once cfg env s with
  | Except.ok r => r.state
  | Except.error _ => s

/-- Persisted state after running a sequence of poll cycles. -/
def run_cycles (cfg : Config) (envs : List CycleEnv) (s : State) : State :=
  envs.foldl (fun st e => daemon_step cfg e st) s

/-! Helper lemmas about the sorted fetch and the cycle step. -/

theorem mem_insertByRowid {a r : Row} {l : List Row} :
    a ∈ insertByRowid r l ↔ a = r ∨ a ∈ l := by
  induction l with
  | nil => simp [insertByRowid]
  | cons x xs ih =>
    simp only [insertByRowid]
    split
    · simp
    · simp only [List.mem_cons, ih]
      tauto

theorem mem_sortByRowid {a : Row} {l : List Row} : a ∈ sortByRowid l ↔ a ∈ l := by
  induction l with
  | nil => simp [sortByRowid]
  | cons x xs ih => simp [sortByRowid, mem_insertByRowid, ih]

theorem sorted_insertByRowid {r : Row} {l : List Row}
    (h : l.Pairwise (fun a b => a.rowid ≤ b.rowid)) :
    (insertByRowid r l).Pairwise (fun a b => a.rowid ≤ b.rowid) := by
  induction l with
  | nil => simp [insertByRowid]
  | cons x xs ih =>
    rw [List.pairwise_cons] at h
    obtain ⟨hx, hxs⟩ := h
    by_cases hle : r.rowid ≤ x.rowid
    · simp only [insertByRowid, if_pos hle]
      rw [List.pairwise_cons]
      refine ⟨?_, ?_⟩
      · intro b hb
        rcases List.mem_cons.mp hb with rfl | hb
        · exact hle
        · exact le_trans hle (hx b hb)
      · rw [List.pairwise_cons]
        exact ⟨hx, hxs⟩
    · simp only [insertByRowid, if_neg hle]
      rw [List.pairwise_cons]
      refine ⟨?_, ih hxs⟩
      intro b hb
      rcases mem_insertByRowid.mp hb with rfl | hb
      · exact le_of_not_le hle
      · exact hx b hb

theorem sorted_sortByRowid (l : List Row) :
    (sortByRowid l).Pairwise (fun a b => a.rowid ≤ b.rowid) := by
  induction l with
  | nil => exact List.Pairwise.nil
  | cons x xs ih => exact sorted_insertByRowid ih

theorem fetch_sorted (db : List Row) (last_rowid : ℤ) (limit : ℕ) (relay_number : String) :
    (fetch_new_messages db last_rowid limit relay_number).Pairwise
      (fun a b => a.rowid ≤ b.rowid) := by
  unfold fetch_new_messages
  refine (List.pairwise_map).mpr ?_
  exact (sorted_sortByRowid (db.filter (row_passes last_rowid relay_number))).sublist
    (List.take_sublist limit _)

theorem fetch_mem_gt (db : List Row) (last_rowid : ℤ) (limit : ℕ) (relay_number : String) :
    ∀ m ∈ fetch_new_messages db last_rowid limit relay_number, last_rowid < m.rowid := by
  intro m hm
  unfold fetch_new_messages at hm
  obtain ⟨r, hr, rfl⟩ := List.mem_map.mp hm
  have hr₂ : r ∈ db.filter (row_passes last_rowid relay_number) :=
    mem_sortByRowid.mp (List.take_subset limit _ hr)
  have hp := (List.mem_filter.mp hr₂).2
  unfold row_passes at hp
  simp only [Bool.and_eq_true, decide_eq_true_eq] at hp
  exact hp.1.1.2

theorem mem_of_getLast?_eq {α : Type} {l : List α} {a : α} (h : l.getLast? = some a) :
    a ∈ l := by
  induction l with
  | nil => simp [List.getLast?] at h
  | cons x xs ih =>
    cases xs with
    | nil =>
      simp only [List.getLast?_singleton, Option.some.injEq] at h
      simp [h]
    | cons y ys =>
      rw [List.getLast?_cons_cons] at h
      exact List.mem_cons_of_mem _ (ih h)

theorem pairwise_getLast?_le {l : List Msg}
    (hs : l.Pairwise (fun a b => a.rowid ≤ b.rowid))
    {m : Msg} (hm : l.getLast? = some m) : ∀ a ∈ l, a.rowid ≤ m.rowid := by
  induction l with
  | nil => simp [List.getLast?] at hm
  | cons x xs ih =>
    rw [List.pairwise_cons] at hs
    obtain ⟨hx, hxs⟩ := hs
    intro a ha
    cases xs with
    | nil =>
      simp only [List.getLast?_singleton, Option.some.injEq] at hm
      rcases List.mem_cons.mp ha with rfl | ha
      · exact le_of_eq (congrArg Msg.rowid hm.symm ▸ rfl)
      · simp at ha
    | cons y ys =>
      rw [List.getLast?_cons_cons] at hm
      rcases List.mem_cons.mp ha with rfl | ha
      · exact hx m (mem_of_getLast?_eq hm)
      · exact ih hxs hm a ha

theorem run_once_locked (cfg : Config) (env : CycleEnv) (s : State) (m : String)
    (hexc : env.fetchExc = some (.operationalError m))
    (hlock : pyContains "database is locked" m = true) :
    run_once cfg env s = Except.ok ⟨s, false, 0, true⟩ := by
  unfold run_once
  rw [hexc]
  simp [hlock]

theorem run_once_empty (cfg : Config) (env : CycleEnv) (s : State)
    (hexc : env.fetchExc = none)
    (hm : (fetch_new_messages env.db s.last_rowid cfg.max_messages_per_run
      cfg.relay_number).getLast? = none) :
    run_once cfg env s = Except.ok ⟨s, false, 0, true⟩ := by
  unfold run_once
  rw [hexc]
  simp only [hm]

theorem run_once_nonempty (cfg : Config) (env : CycleEnv) (s : State) (m : Msg)
    (hexc : env.fetchExc = none)
    (hm : (fetch_new_messages env.db s.last_rowid cfg.max_messages_per_run
      cfg.relay_number).getLast? = some m) :
    run_once cfg env s = Except.ok
      ⟨⟨m.rowid, some env.now⟩, true,
        if (apply_filters env.localtz (fetch_new_messages env.db s.last_rowid
            cfg.max_messages_per_run cfg.relay_number) cfg.filters).isEmpty then 0
        else forward_sends cfg.digest_mode (apply_filters env.localtz (fetch_new_messages env.db
            s.last_rowid cfg.max_messages_per_run cfg.relay_number) cfg.filters),
        if (apply_filters env.localtz (fetch_new_messages env.db s.last_rowid
            cfg.max_messages_per_run cfg.relay_number) cfg.filters).isEmpty then true
        else forward_ok cfg.digest_mode env.sink (apply_filters env.localtz (fetch_new_messages
            env.db s.last_rowid cfg.max_messages_per_run cfg.relay_number) cfg.filters)⟩ := by
  unfold run_once
  rw [hexc]
  simp only [hm]

theorem daemon_step_mono (cfg : Config) (env : CycleEnv) (s : State) :
    s.last_rowid ≤ (daemon_step cfg env s).last_rowid := by
  unfold daemon_step
  cases hexc : env.fetchExc with
  | some e =>
    cases e with
    | operationalError m =>
      by_cases hl : pyContains "database is locked" m = true
      · rw [run_once_locked cfg env s m hexc hl]
      · have : run_once cfg env s = Except.error m := by
          unfold run_once
          rw [hexc]
          simp [hl]
        rw [this]
  | none =>
    cases hm : (fetch_new_messages env.db s.last_rowid cfg.max_messages_per_run
        cfg.relay_number).getLast? with
    | none => rw [run_once_empty cfg env s hexc hm]
    | some m =>
      rw [run_once_nonempty cfg env s m hexc hm]
      have hmem := mem_of_getLast?_eq hm
      exact le_of_lt (fetch_mem_gt env.db s.last_rowid cfg.max_messages_per_run
        cfg.relay_number m hmem)

theorem run_cycles_mono (cfg : Config) (envs : List CycleEnv) (s : State) :
    s.last_rowid ≤ (run_cycles cfg envs s).last_rowid := by
  induction envs generalizing s with
  | nil => simp [run_cycles]
  | cons e es ih =>
    have h₁ : run_cycles cfg (e :: es) s = run_cycles cfg es (daemon_step cfg e s) := rfl
    rw [h₁]
    exact le_trans (daemon_step_mono cfg e s) (ih (daemon_step cfg e s))

/-! Concrete scenario data used by witnesses and counterexamples. -/

/-- An ordinary inbound row with the given ROWID. -/
def sampleRow (i : ℤ) : Row :=
  { rowid := i
    guid := "guid"
    text := some "hello"
    date := some 0
    service := some "SMS"
    is_from_me := false
    cache_has_attachments := false
    sender := some "+15550001111"
    chat_name := none
    account_login := none }

/-- Filters with everything disabled (the shipped default configuration). -/
def noFilters : FilterConfig := ⟨[], [], false, 8, 18, [0, 1, 2, 3, 4]⟩

/-- Configuration used by the concrete scenarios: digest mode off, the
default per-run limit of 50, no relay-number restriction, no filters. -/
def sampleConfig : Config := ⟨false, 50, "", noFilters⟩

/-- A fixed local-time view used by scenarios: Monday noon. -/
def mondayNoon : LocalTime := ⟨0, 12⟩

/-- Environment with rows 101, 102, 103 in the store and a sink whose
every send attempt fails. -/
def failingSinkEnv : CycleEnv :=
  ⟨[sampleRow 101, sampleRow 102, sampleRow 103], none, fun _ => false,
    "2026-01-02T03:04:05+00:00", fun _ => mondayNoon⟩

/-- Environment whose store holds no new rows. -/
def emptyDbEnv : CycleEnv :=
  ⟨[], none, fun _ => false, "2026-01-02T00:00:00+00:00", fun _ => mondayNoon⟩

/-- Environment whose fetch raises the lock-contention `OperationalError`. -/
def lockedEnv : CycleEnv :=
  ⟨[sampleRow 101], some (.operationalError "database is locked"),
    fun _ => false, "2026-01-02T00:00:00+00:00", fun _ => mondayNoon⟩

/-- Business-hours-only filter configuration (8 to 18, Monday to Friday). -/
def bhOnlyFilters : FilterConfig := ⟨[], [], true, 8, 18, [0, 1, 2, 3, 4]⟩

/-- A message carrying no timestamp. -/
def noDateMsg : Msg := ⟨101, "guid", "hello", none, "SMS", "+15550001111", "", false⟩

/-- Filters whose allow list and block list both contain the same sender. -/
def blockAndAllowFilters : FilterConfig :=
  ⟨["+15550001111"], ["+15550001111"], false, 8, 18, [0, 1, 2, 3, 4]⟩

/-- A row whose sender, service and chat-name joins all came back NULL. -/
def nullSenderRow : Row :=
  { rowid := 201
    guid := "guid"
    text := some "hi"
    date := some 0
    service := none
    is_from_me := false
    cache_has_attachments := false
    sender := none
    chat_name := none
    account_login := none }

/-- Filters with a non-empty allow list that does not contain "unknown". -/
def allowOnlyFilters : FilterConfig := ⟨["+15550009999"], [], false, 8, 18, [0, 1, 2, 3, 4]⟩

/-- Old serialized cursor record used in the crash-atomicity scenario. -/
def c4_old : String := "\x7b\"last_rowid\": 100\x7d"

/-- New serialized cursor record used in the crash-atomicity scenario. -/
def c4_new : String := "\x7b\"last_rowid\": 103\x7d"

/-! Claim C2: business-hours filtering of records with no timestamp. -/

/-- C2 counterexample: under `businessHoursOnly`, a record with no
timestamp is admitted by `apply_filters`, not rejected — the code guard
`bh_only and msg["date"]` skips the business-hours checks when the date
is absent. -/
theorem c2_counterexample :
    passes_filters (fun _ => mondayNoon) bhOnlyFilters noDateMsg = true ∧
    apply_filters (fun _ => mondayNoon) [noDateMsg] bhOnlyFilters = [noDateMsg] := by
  decide

/-- C2 amended: under `businessHoursOnly`, a record passing the sender
checks is admitted outright when it has no timestamp (fail-open); when a
timestamp is present it is admitted exactly when its local weekday is in
the configured days and its local hour h satisfies start ≤ h < end. -/
theorem c2_business_hours_fail_open
    (localtz : ℚ → LocalTime) (f : FilterConfig) (m : Msg)
    (hallow : f.allowed_senders.isEmpty = true ∨ m.sender ∈ f.allowed_senders)
    (hblock : m.sender ∉ f.blocked_senders)
    (hbh : f.business_hours_only = true) :
    (m.date = none → passes_filters localtz f m = true) ∧
    (∀ d : ℚ, m.date = some d →
      (passes_filters localtz f m = true ↔
        (localtz d).weekday ∈ f.business_days ∧
        f.bh_start ≤ (localtz d).hour ∧ (localtz d).hour < f.bh_end)) := by
  have hallow' : (!f.allowed_senders.isEmpty && !(f.allowed_senders.contains m.sender)) = false := by
    rcases hallow with h | h
    · simp [h]
    · simp [h]
  have hblock' : f.blocked_senders.contains m.sender = false := by
    simpa using hblock
  constructor
  · intro hd
    unfold passes_filters
    rw [hallow', hblock', hbh, hd]
    simp
  · intro d hd
    unfold passes_filters
    rw [hallow', hblock', hbh, hd]
    simp only [Bool.false_eq_true, if_false]
    constructor
    · intro h
      by_cases hday : (localtz d).weekday ∈ f.business_days
      · refine ⟨hday, ?_⟩
        by_cases hhr : f.bh_start ≤ (localtz d).hour ∧ (localtz d).hour < f.bh_end
        · exact hhr
        · simp [hday, hhr] at h
      · simp [hday] at h
    · rintro ⟨hday, hhr⟩
      simp [hday, hhr.1, hhr.2]

/-- C2 witness: the amended statement at the concrete no-timestamp
message and the business-hours configuration. -/
theorem c2_witness :
    passes_filters (fun _ => mondayNoon) bhOnlyFilters noDateMsg = true :=
  (c2_business_hours_fail_open (fun _ => mondayNoon) bhOnlyFilters noDateMsg
    (Or.inl (by decide)) (by decide) rfl).1 rfl

/-! Claim C3: the timestamp normalizer. -/

/-- C3 counterexample: at exactly `10^15` the code takes the seconds
branch (the claimed "at or above `10^15` is nanoseconds" boundary is
wrong: the code tests strictly above), and `normalize(10^18)` is the
vendor epoch plus `10^9` seconds, not plus one second. -/
theorem c3_counterexample :
    apple_ts_to_datetime (some ((10 : ℤ) ^ 15)) =
      some (((10 ^ 15 : ℤ) : ℚ) + (APPLE_EPOCH_OFFSET : ℚ)) ∧
    apple_ts_to_datetime (some ((10 : ℤ) ^ 15)) ≠
      some (((10 ^ 15 : ℤ) : ℚ) / 10 ^ 9 + (APPLE_EPOCH_OFFSET : ℚ)) ∧
    apple_ts_to_datetime (some ((10 : ℤ) ^ 18)) ≠
      some ((1 : ℚ) + (APPLE_EPOCH_OFFSET : ℚ)) := by
  refine ⟨?_, ?_, ?_⟩ <;> norm_num [apple_ts_to_datetime, APPLE_EPOCH_OFFSET]

/-- C3 amended: raw value 0 or absent maps to none; a nonzero raw value
at or below `10^15` is seconds since the vendor epoch; a raw value
strictly above `10^15` is nanoseconds since the vendor epoch.  In
particular normalize(0) = none, normalize(10^9) = vendor epoch + 10^9
seconds, and normalize(10^18) = vendor epoch + 10^9 seconds. -/
theorem c3_normalizer_regimes :
    apple_ts_to_datetime none = none ∧
    apple_ts_to_datetime (some 0) = none ∧
    (∀ ts : ℤ, ts ≠ 0 → ts ≤ 10 ^ 15 →
      apple_ts_to_datetime (some ts) = some ((ts : ℚ) + (APPLE_EPOCH_OFFSET : ℚ))) ∧
    (∀ ts : ℤ, 10 ^ 15 < ts →
      apple_ts_to_datetime (some ts) = some ((ts : ℚ) / 10 ^ 9 + (APPLE_EPOCH_OFFSET : ℚ))) ∧
    apple_ts_to_datetime (some (10 ^ 9)) =
      some (((10 ^ 9 : ℤ) : ℚ) + (APPLE_EPOCH_OFFSET : ℚ)) ∧
    apple_ts_to_datetime (some (10 ^ 18)) =
      some (((10 : ℚ) ^ 9) + (APPLE_EPOCH_OFFSET : ℚ)) := by
  refine ⟨rfl, rfl, ?_, ?_, ?_, ?_⟩
  · intro ts h0 hle
    simp only [apple_ts_to_datetime]
    rw [if_neg h0, if_neg (not_lt.mpr hle)]
  · intro ts hgt
    have h0 : ts ≠ 0 := by
      intro h
      rw [h] at hgt
      norm_num at hgt
    simp only [apple_ts_to_datetime]
    rw [if_neg h0, if_pos hgt]
  · norm_num [apple_ts_to_datetime]
  · norm_num [apple_ts_to_datetime]

/-- C3 witness: the seconds regime at raw 5 and the nanoseconds regime
at raw `10^16`. -/
theorem c3_witness :
    apple_ts_to_datetime (some 5) = some ((5 : ℚ) + (APPLE_EPOCH_OFFSET : ℚ)) ∧
    apple_ts_to_datetime (some ((10 : ℤ) ^ 16)) =
      some ((((10 : ℤ) ^ 16 : ℤ) : ℚ) / 10 ^ 9 + (APPLE_EPOCH_OFFSET : ℚ)) := by
  refine ⟨?_, c3_normalizer_regimes.2.2.2.1 ((10 : ℤ) ^ 16) (by norm_num)⟩
  have h := c3_normalizer_regimes.2.2.1 5 (by decide) (by decide)
  simpa using h

/-! Claim C4: crash atomicity of the cursor write. -/

/-- C4 counterexample: `save_state` writes the state file in place, so a
crash mid-write can leave a strict prefix of the new record (for
instance its first byte) on disk — neither the complete old record nor
the complete new one. -/
theorem c4_counterexample : ¬ save_state_atomic c4_old c4_new := by
  unfold save_state_atomic
  decide

/-- C4 amended: `save_state` persists the cursor with a single direct
write of the serialized record to the state file (no temporary file, no
rename), and that write is not crash-atomic: a crash mid-write can leave
contents on disk that are neither the complete old record nor the
complete new record. -/
theorem c4_direct_write_not_atomic :
    (∀ c : String, save_state_ops c = [FsOp.mkdirConfigDir, FsOp.writeFile stateFilePath c]) ∧
    (∃ s ∈ crash_contents c4_old (save_state_ops c4_new), s ≠ c4_old ∧ s ≠ c4_new) := by
  refine ⟨fun c => rfl, ?_⟩
  decide

/-! Claim C5: webhook delivery outcome. -/

/-- C5 counterexample: a 201 Created response is 200-class, yet the
webhook send reports failure — the code tests `resp.status == 200`
exactly. -/
theorem c5_counterexample :
    send_gchat_webhook (UrlOpenResult.response 201) = false := by
  decide

/-- C5 amended: a webhook send reports delivered exactly when the HTTP
status is 200; any raised `URLError` (which includes every `HTTPError`)
yields delivered = false; the send is a total function, so no exception
escapes to the cycle. -/
theorem c5_webhook_exact_200 :
    (∀ s : ℕ, send_gchat_webhook (UrlOpenResult.response s) = (s == 200)) ∧
    send_gchat_webhook UrlOpenResult.urlError = false :=
  ⟨fun _ => rfl, rfl⟩

/-! Claim C1: the persisted cursor equals the batch maximum and never
decreases. -/

/-- C1: in every cycle whose fetch returns a non-empty batch, the
persisted cursor equals the maximum sequenceId (ROWID) among all fetched
records — it is one of the fetched ROWIDs and bounds them all —
independent of filtering or forwarding outcomes, and strictly exceeds
the prior cursor; moreover across any sequence of cycles the persisted
cursor never decreases. -/
theorem c1_cursor_batch_max_monotone :
    (∀ (cfg : Config) (env : CycleEnv) (s : State) (m : Msg),
      env.fetchExc = none →
      (fetch_new_messages env.db s.last_rowid cfg.max_messages_per_run
        cfg.relay_number).getLast? = some m →
      ∃ r : RunResult, run_once cfg env s = Except.ok r ∧
        r.state.last_rowid ∈
          (fetch_new_messages env.db s.last_rowid cfg.max_messages_per_run
            cfg.relay_number).map Msg.rowid ∧
        (∀ a ∈ fetch_new_messages env.db s.last_rowid cfg.max_messages_per_run
            cfg.relay_number, a.rowid ≤ r.state.last_rowid) ∧
        s.last_rowid < r.state.last_rowid) ∧
    (∀ (cfg : Config) (envs : List CycleEnv) (s : State),
      s.last_rowid ≤ (run_cycles cfg envs s).last_rowid) := by
  constructor
  · intro cfg env s m hexc hm
    refine ⟨_, run_once_nonempty cfg env s m hexc hm, ?_, ?_, ?_⟩
    · exact List.mem_map_of_mem Msg.rowid (mem_of_getLast?_eq hm)
    · exact pairwise_getLast?_le (fetch_sorted _ _ _ _) hm
    · exact fetch_mem_gt _ _ _ _ m (mem_of_getLast?_eq hm)
  · exact run_cycles_mono

/-- C1 witness: the concrete batch with ROWIDs 101, 102, 103 fetched
past cursor 100. -/
theorem c1_witness :
    ∃ r : RunResult, run_once sampleConfig failingSinkEnv ⟨100, none⟩ = Except.ok r ∧
      r.state.last_rowid ∈
        (fetch_new_messages failingSinkEnv.db (100 : ℤ) sampleConfig.max_messages_per_run
          sampleConfig.relay_number).map Msg.rowid ∧
      (∀ a ∈ fetch_new_messages failingSinkEnv.db (100 : ℤ) sampleConfig.max_messages_per_run
          sampleConfig.relay_number, a.rowid ≤ r.state.last_rowid) ∧
      (100 : ℤ) < r.state.last_rowid :=
  c1_cursor_batch_max_monotone.1 sampleConfig failingSinkEnv ⟨100, none⟩
    (row_to_msg (sampleRow 103)) rfl (by decide)

/-! Claim C6: forward failure never blocks cursor advancement. -/

/-- C6: when the fetch succeeds with a non-empty batch, digest mode is
off, some records are admitted, and every sink send fails, the cycle
still completes without raising, exactly one send is attempted per
admitted record (no retry), the failure is reported, and the cursor is
persisted to the last (highest) fetched ROWID. -/
theorem c6_all_sends_fail_cursor_still_advances
    (cfg : Config) (env : CycleEnv) (s : State) (m : Msg)
    (hexc : env.fetchExc = none)
    (hdig : cfg.digest_mode = false)
    (hsink : ∀ i, env.sink i = false)
    (hm : (fetch_new_messages env.db s.last_rowid cfg.max_messages_per_run
      cfg.relay_number).getLast? = some m)
    (hfil : apply_filters env.localtz (fetch_new_messages env.db s.last_rowid
      cfg.max_messages_per_run cfg.relay_number) cfg.filters ≠ []) :
    run_once cfg env s = Except.ok
      ⟨⟨m.rowid, some env.now⟩, true,
        (apply_filters env.localtz (fetch_new_messages env.db s.last_rowid
          cfg.max_messages_per_run cfg.relay_number) cfg.filters).length, false⟩ := by
  rw [run_once_nonempty cfg env s m hexc hm]
  have hne : (apply_filters env.localtz (fetch_new_messages env.db s.last_rowid
      cfg.max_messages_per_run cfg.relay_number) cfg.filters).isEmpty = false := by
    simpa [List.isEmpty_iff] using hfil
  have hlen : (apply_filters env.localtz (fetch_new_messages env.db s.last_rowid
      cfg.max_messages_per_run cfg.relay_number) cfg.filters).length ≠ 0 := by
    simpa [List.length_eq_zero] using hfil
  have hall : (List.range (apply_filters env.localtz (fetch_new_messages env.db s.last_rowid
      cfg.max_messages_per_run cfg.relay_number) cfg.filters).length).all env.sink = false := by
    rw [List.all_eq_false]
    exact ⟨0, List.mem_range.mpr (Nat.pos_of_ne_zero hlen), by simp [hsink]⟩
  simp [hne, hdig, forward_sends, forward_ok, hall]

/-- C6 witness: cursor 100, fetched ROWIDs 101, 102, 103, digest off,
all admitted, every send fails — the run returns normally, attempts
three sends, reports the failure, and persists cursor 103. -/
theorem c6_witness :
    run_once sampleConfig failingSinkEnv ⟨100, none⟩ = Except.ok
      ⟨⟨103, some "2026-01-02T03:04:05+00:00"⟩, true, 3, false⟩ := by
  have h := c6_all_sends_fail_cursor_still_advances sampleConfig failingSinkEnv ⟨100, none⟩
    (row_to_msg (sampleRow 103)) rfl rfl (fun _ => rfl) (by decide) (by decide)
  rw [h]
  congr 1

/-! Claim C7: lock contention skips the cycle. -/

/-- C7: when the fetch raises the lock-contention `OperationalError`,
the cycle is skipped — the persisted state keeps its prior value,
nothing is saved, no send is attempted, no exception escapes — and the
next cycle proceeds exactly as it would have from the prior state. -/
theorem c7_lock_contention_skips_cycle
    (cfg : Config) (env : CycleEnv) (s : State) (m : String)
    (hexc : env.fetchExc = some (.operationalError m))
    (hlock : pyContains "database is locked" m = true) :
    run_once cfg env s = Except.ok ⟨s, false, 0, true⟩ ∧
    ∀ env2 : CycleEnv, run_cycles cfg [env, env2] s = daemon_step cfg env2 s := by
  have h := run_once_locked cfg env s m hexc hlock
  refine ⟨h, fun env2 => ?_⟩
  have hstep : daemon_step cfg env s = s := by
    unfold daemon_step
    rw [h]
  show daemon_step cfg env2 (daemon_step cfg env s) = daemon_step cfg env2 s
  rw [hstep]

/-- C7 witness: the concrete locked environment, followed by an
ordinary cycle. -/
theorem c7_witness :
    run_once sampleConfig lockedEnv ⟨100, none⟩ =
      Except.ok ⟨⟨100, none⟩, false, 0, true⟩ ∧
    run_cycles sampleConfig [lockedEnv, failingSinkEnv] ⟨100, none⟩ =
      daemon_step sampleConfig failingSinkEnv ⟨100, none⟩ := by
  have h := c7_lock_contention_skips_cycle sampleConfig lockedEnv ⟨100, none⟩
    "database is locked" rfl (by decide)
  exact ⟨h.1, h.2 failingSinkEnv⟩

/-! Claim C8: block always takes precedence over allow. -/

/-- C8: a record whose sender appears in `blockedSenders` is always
rejected by the filter engine, even when the sender also appears in
`allowedSenders`: its admission test is false and it never appears in
the filter output. -/
theorem c8_blocked_sender_always_rejected
    (localtz : ℚ → LocalTime) (f : FilterConfig) (m : Msg)
    (hb : m.sender ∈ f.blocked_senders) :
    passes_filters localtz f m = false ∧
    ∀ msgs : List Msg, m ∉ apply_filters localtz msgs f := by
  have hpass : passes_filters localtz f m = false := by
    unfold passes_filters
    by_cases hal : (!f.allowed_senders.isEmpty && !(f.allowed_senders.contains m.sender)) = true
    · rw [if_pos hal]
    · rw [if_neg hal, if_pos (by simpa using hb)]
  refine ⟨hpass, fun msgs hmem => ?_⟩
  unfold apply_filters at hmem
  have := (List.mem_filter.mp hmem).2
  rw [hpass] at this
  exact Bool.false_ne_true this

/-- C8 witness: a sender listed in both the allow list and the block
list is rejected. -/
theorem c8_witness :
    passes_filters (fun _ => mondayNoon) blockAndAllowFilters noDateMsg = false ∧
    noDateMsg ∉ apply_filters (fun _ => mondayNoon) [noDateMsg] blockAndAllowFilters := by
  have h := c8_blocked_sender_always_rejected (fun _ => mondayNoon) blockAndAllowFilters
    noDateMsg (by decide)
  exact ⟨h.1, h.2 [noDateMsg]⟩

/-! Claim C9: when the state file is rewritten. -/

/-- C9 counterexample: a cycle whose fetch returns zero records returns
before `save_state` — nothing is overwritten (`saved = false`), so the
state record is not rewritten at the end of every cycle. -/
theorem c9_counterexample :
    run_once sampleConfig emptyDbEnv ⟨7, some "earlier"⟩ =
      Except.ok ⟨⟨7, some "earlier"⟩, false, 0, true⟩ := by
  rfl

/-- C9 amended: the state record is read at the start of every cycle,
but overwritten only at the end of a cycle whose fetch returned at least
one record — both `lastSequenceId` and `lastRunTimestamp` are then
rewritten; a cycle with an empty fetch returns without writing. -/
theorem c9_state_written_only_on_nonempty_fetch
    (cfg : Config) (env : CycleEnv) (s : State)
    (hexc : env.fetchExc = none) :
    ((fetch_new_messages env.db s.last_rowid cfg.max_messages_per_run
        cfg.relay_number).getLast? = none →
      run_once cfg env s = Except.ok ⟨s, false, 0, true⟩) ∧
    (∀ m : Msg, (fetch_new_messages env.db s.last_rowid cfg.max_messages_per_run
        cfg.relay_number).getLast? = some m →
      ∃ r : RunResult, run_once cfg env s = Except.ok r ∧ r.saved = true ∧
        r.state = ⟨m.rowid, some env.now⟩) := by
  refine ⟨fun hm => run_once_empty cfg env s hexc hm, fun m hm => ?_⟩
  exact ⟨_, run_once_nonempty cfg env s m hexc hm, rfl, rfl⟩

/-- C9 witness: the empty-fetch cycle writes nothing; the non-empty
cycle writes both fields. -/
theorem c9_witness :
    run_once sampleConfig emptyDbEnv ⟨7, some "earlier"⟩ =
      Except.ok ⟨⟨7, some "earlier"⟩, false, 0, true⟩ ∧
    ∃ r : RunResult, run_once sampleConfig failingSinkEnv ⟨100, none⟩ = Except.ok r ∧
      r.saved = true ∧ r.state = ⟨103, some "2026-01-02T03:04:05+00:00"⟩ := by
  constructor
  · exact (c9_state_written_only_on_nonempty_fetch sampleConfig emptyDbEnv
      ⟨7, some "earlier"⟩ rfl).1 (by decide)
  · obtain ⟨r, hr, hsaved, hstate⟩ := (c9_state_written_only_on_nonempty_fetch sampleConfig
      failingSinkEnv ⟨100, none⟩ rfl).2 (row_to_msg (sampleRow 103)) (by decide)
    exact ⟨r, hr, hsaved, by rw [hstate]; decide⟩

/-! Claim C10: defaults substituted for NULL join values. -/

/-- C10: a fetched row whose sender, service or group join came back
NULL gets the fixed defaults "unknown", "SMS" and "" in the produced
message, and the filter engine evaluates its allow/block rules against
those substituted values: a non-empty allow list without "unknown"
rejects a record with a missing sender, while an allow list containing
"unknown" (that does not also block it) admits it when business-hours
mode is off. -/
theorem c10_null_join_defaults :
    (∀ r : Row, r.sender = none → (row_to_msg r).sender = "unknown") ∧
    (∀ r : Row, r.service = none → (row_to_msg r).service = "SMS") ∧
    (∀ r : Row, r.chat_name = none → (row_to_msg r).chat_name = "") ∧
    (∀ (localtz : ℚ → LocalTime) (f : FilterConfig) (r : Row),
      r.sender = none → f.allowed_senders ≠ [] → "unknown" ∉ f.allowed_senders →
      passes_filters localtz f (row_to_msg r) = false) ∧
    (∀ (localtz : ℚ → LocalTime) (f : FilterConfig) (r : Row),
      r.sender = none → "unknown" ∈ f.allowed_senders → "unknown" ∉ f.blocked_senders →
      f.business_hours_only = false →
      passes_filters localtz f (row_to_msg r) = true) := by
  have hsender : ∀ r : Row, r.sender = none → (row_to_msg r).sender = "unknown" := by
    intro r h
    simp [row_to_msg, pyOrStr, h]
  refine ⟨hsender, ?_, ?_, ?_, ?_⟩
  · intro r h
    simp [row_to_msg, pyOrStr, h]
  · intro r h
    simp [row_to_msg, pyOrStr, h]
  · intro localtz f r hs hne hu
    have h1 : f.allowed_senders.isEmpty = false := by
      simpa [List.isEmpty_iff] using hne
    have h2 : f.allowed_senders.contains (row_to_msg r).sender = false := by
      rw [hsender r hs]
      simpa using hu
    unfold passes_filters
    rw [if_pos (by rw [h1, h2]; rfl)]
  · intro localtz f r hs hu hb hbh
    have h2 : f.allowed_senders.contains (row_to_msg r).sender = true := by
      rw [hsender r hs]
      simpa using hu
    have h3 : f.blocked_senders.contains (row_to_msg r).sender = false := by
      rw [hsender r hs]
      simpa using hb
    unfold passes_filters
    rw [if_neg (by rw [h2]; simp), if_neg (by rw [h3]; simp), hbh]

/-- C10 witness: the all-NULL row gets the defaults and is rejected by
an allow list not containing "unknown". -/
theorem c10_witness :
    (row_to_msg nullSenderRow).sender = "unknown" ∧
    (row_to_msg nullSenderRow).service = "SMS" ∧
    (row_to_msg nullSenderRow).chat_name = "" ∧
    passes_filters (fun _ => mondayNoon) allowOnlyFilters (row_to_msg nullSenderRow) = false := by
  refine ⟨c10_null_join_defaults.1 nullSenderRow rfl,
    c10_null_join_defaults.2.1 nullSenderRow rfl,
    c10_null_join_defaults.2.2.1 nullSenderRow rfl,
    c10_null_join_defaults.2.2.2.1 (fun _ => mondayNoon) allowOnlyFilters nullSenderRow rfl
      (by decide) (by decide)⟩

end SmsRelay
